import Mathlib

/-!
Shallow embedding of the Resource Assistant pipeline
(planner / executor / verifier agents and the search tools),
together with proofs of the behavioural properties stated in its
specification.

Python dictionaries that carry resource items are modelled as
association lists of string keys to JSON-ish values (`RItem`); the
fixed-shape records of the pipeline (analysis results, use cases,
plans) are modelled as structures whose fields are `Option`-valued to
reflect possibly-missing dictionary keys.  External collaborators
(the text-generation capability, the web/news/catalog search
backends) are passed in as explicit oracle functions, with `Except`
capturing calls that may raise.
-/

namespace ResourceAssistant

/-- A JSON-ish scalar value stored in a resource-item dictionary. -/
inductive JVal where
  | str (s : String)
  | int (n : Int)
  deriving DecidableEq, Repr

/-- A resource-item dictionary: an association list of keys to values
(first binding wins, as in a Python dict). -/
abbrev RItem := List (String × JVal)

/-- `dget r k d` models Python `r.get(k, d)` on a resource item. -/
def dget (r : RItem) (key : String) (dflt : JVal) : JVal :=
  match r.find? (fun p => p.1 == key) with
  | some p => p.2
  | none => dflt

/-- The list of keys of a resource-item dictionary. -/
def rkeys (r : RItem) : List String := r.map Prod.fst

/-! ### String helpers

Python's builtin string operations used by the pipeline, implemented
by structural recursion over character lists (so that concrete runs
reduce inside the kernel). -/

/-- Python `s.replace(' ', '+')`: the needle is a single character,
so the replacement is a per-character map. -/
def plusEncode (s : String) : String :=
  String.mk (s.toList.map (fun c => if c = ' ' then '+' else c))

/-- Helper for `queryWords`: scan the characters, accumulating the
current word in reverse. -/
def splitWordsAux : List Char → List Char → List String
  | acc, [] => if acc.isEmpty then [] else [String.mk acc.reverse]
  | acc, c :: cs =>
    if c.isWhitespace then
      if acc.isEmpty then splitWordsAux [] cs
      else String.mk acc.reverse :: splitWordsAux [] cs
    else splitWordsAux (c :: acc) cs

/-- Python `s.split()` (no argument): split on runs of whitespace,
producing no empty words. -/
def queryWords (q : String) : List String := splitWordsAux [] q.toList

/-- Python `" ".join(ws)`. -/
def joinWords (ws : List String) : String := String.intercalate " " ws

/-- `startsWithChars needle l`: `l` begins with `needle`. -/
def startsWithChars : List Char → List Char → Bool
  | [], _ => true
  | _ :: _, [] => false
  | a :: as, b :: bs => a == b && startsWithChars as bs

/-- `containsSubChars needle hay`: `needle` occurs contiguously in
`hay`. -/
def containsSubChars (needle : List Char) : List Char → Bool
  | [] => needle.isEmpty
  | c :: cs => startsWithChars needle (c :: cs) || containsSubChars needle cs

/-- Python `needle in hay` on strings. -/
def strContains (hay needle : String) : Bool :=
  containsSubChars needle.toList hay.toList

/-! ## Verifier agent: data model

`src/agents/verifier_agent.py` operates on nested dictionaries; a
missing key is modelled as `none`. -/

/-- The per-use-case `resources` dictionary, one optional list per
backend key. -/
structure RawResources where
  arxiv : Option (List RItem)
  huggingface : Option (List RItem)
  kaggle : Option (List RItem)
  github : Option (List RItem)
  deriving DecidableEq, Repr

/-- An entry of `ai_use_cases` as the verifier receives it. -/
structure RawUseCase where
  use_case : Option String
  description : Option String
  search_keywords : Option String
  resources : Option RawResources
  deriving DecidableEq, Repr

/-- The analysis-result dictionary handed to the verifier. -/
structure RawResult where
  company : Option String
  company_summary : Option String
  news_summary : Option String
  ai_use_cases : Option (List RawUseCase)
  deriving DecidableEq, Repr

/-- The empty `resources` dictionary (`use_case.get("resources", {})`
when the key is absent). -/
def emptyResources : RawResources := ⟨none, none, none, none⟩

/-- Python truthiness of `resources.get(backend)`: true exactly when
the key is present and holds a non-empty list. -/
def truthyList (o : Option (List RItem)) : Bool :=
  match o with
  | some (_ :: _) => true
  | _ => false

/-! ## Verifier agent: operations (`VerifierAgent`) -/

namespace VerifierAgent

/-- The condition of the company-summary check in
`_check_completeness`: `not results.get("company_summary") or
len(results.get("company_summary", "")) < 10`. -/
def summaryIncomplete (o : Option String) : Bool :=
  match o with
  | none => true
  | some s => s == "" || decide (s.length < 10)

/-- The issues contributed by one use case in `_check_completeness`
(`idx` is the zero-based position from `enumerate`). -/
def useCaseIssues (idx : Nat) (uc : RawUseCase) : List String :=
  let res := uc.resources.getD emptyResources
  (if truthyList res.arxiv then []
   else ["Use-case " ++ toString (idx + 1) ++ ": Missing arXiv resources"]) ++
  (if truthyList res.huggingface then []
   else ["Use-case " ++ toString (idx + 1) ++ ": Missing Hugging Face resources"]) ++
  (if truthyList res.kaggle then []
   else ["Use-case " ++ toString (idx + 1) ++ ": Missing Kaggle resources"]) ++
  (if truthyList res.github then []
   else ["Use-case " ++ toString (idx + 1) ++ ": Missing GitHub resources"])

/-- `VerifierAgent._check_completeness`. -/
def check_completeness (results : RawResult) : List String :=
  let summaryIssues :=
    if summaryIncomplete results.company_summary then
      ["Missing or incomplete company summary"]
    else []
  let use_cases := results.ai_use_cases.getD []
  let noUseCaseIssues :=
    if use_cases.isEmpty then ["No AI use-cases generated"] else []
  summaryIssues ++ noUseCaseIssues ++
    (use_cases.enum.map (fun p => useCaseIssues p.1 p.2)).flatten

/-- Placeholder arXiv entry synthesized by `_fix_issues`. -/
def placeholderArxiv (name : String) : RItem :=
  [("title", JVal.str ("Search arXiv for: " ++ name)),
   ("url", JVal.str ("https://arxiv.org/search/?query=" ++ plusEncode name))]

/-- Placeholder Hugging Face entry synthesized by `_fix_issues`. -/
def placeholderHuggingface (name : String) : RItem :=
  [("name", JVal.str ("Search Hugging Face for: " ++ name)),
   ("url", JVal.str ("https://huggingface.co/search?q=" ++ plusEncode name))]

/-- Placeholder Kaggle entry synthesized by `_fix_issues`. -/
def placeholderKaggle (name : String) : RItem :=
  [("title", JVal.str ("Search Kaggle for: " ++ name)),
   ("url", JVal.str ("https://www.kaggle.com/search?q=" ++ plusEncode name))]

/-- Placeholder GitHub entry synthesized by `_fix_issues`. -/
def placeholderGithub (name : String) : RItem :=
  [("name", JVal.str ("Search GitHub for: " ++ name)),
   ("url", JVal.str ("https://github.com/search?q=" ++ plusEncode name ++ "&type=repositories")),
   ("stars", JVal.int 0)]

/-- The in-place repair of one `resources` dictionary performed by the
body of the loop in `_fix_issues`. -/
def fixResources (name : String) (res : RawResources) : RawResources :=
  { arxiv := if truthyList res.arxiv then res.arxiv else some [placeholderArxiv name],
    huggingface :=
      if truthyList res.huggingface then res.huggingface
      else some [placeholderHuggingface name],
    kaggle := if truthyList res.kaggle then res.kaggle else some [placeholderKaggle name],
    github := if truthyList res.github then res.github else some [placeholderGithub name] }

/-- One iteration of the `_fix_issues` loop.  When the use case has no
`resources` key, `use_case.get("resources", {})` yields a fresh
dictionary; the loop's assignments mutate that fresh dictionary, which
is then discarded, so the use case itself is left unchanged. -/
def fixUseCase (uc : RawUseCase) : RawUseCase :=
  match uc.resources with
  | none => uc
  | some res => { uc with resources := some (fixResources (uc.use_case.getD "") res) }

/-- `VerifierAgent._fix_issues` (the `issues` argument is read only
for logging, so it is not a parameter of the model). -/
def fix_issues (results : RawResult) : RawResult :=
  { results with
    ai_use_cases :=
      match results.ai_use_cases with
      | none => none
      | some l => some (l.map fixUseCase) }

/-- `VerifierAgent._normalize_arxiv` applied to one item. -/
def normalizeArxivItem (r : RItem) : RItem :=
  [("title", dget r "title" (JVal.str "")),
   ("url", dget r "url" (JVal.str ""))]

/-- `VerifierAgent._normalize_huggingface` applied to one item. -/
def normalizeHuggingfaceItem (r : RItem) : RItem :=
  [("name", dget r "name" (JVal.str "")),
   ("url", dget r "url" (JVal.str ""))]

/-- `VerifierAgent._normalize_kaggle` applied to one item. -/
def normalizeKaggleItem (r : RItem) : RItem :=
  [("title", dget r "title" (JVal.str "")),
   ("url", dget r "url" (JVal.str ""))]

/-- `VerifierAgent._normalize_github` applied to one item. -/
def normalizeGithubItem (r : RItem) : RItem :=
  [("name", dget r "name" (JVal.str "")),
   ("url", dget r "url" (JVal.str "")),
   ("stars", dget r "stars" (JVal.int 0))]

/-- `VerifierAgent._normalize_arxiv`. -/
def normalize_arxiv (resources : List RItem) : List RItem :=
  resources.map normalizeArxivItem

/-- `VerifierAgent._normalize_huggingface`. -/
def normalize_huggingface (resources : List RItem) : List RItem :=
  resources.map normalizeHuggingfaceItem

/-- `VerifierAgent._normalize_kaggle`. -/
def normalize_kaggle (resources : List RItem) : List RItem :=
  resources.map normalizeKaggleItem

/-- `VerifierAgent._normalize_github`. -/
def normalize_github (resources : List RItem) : List RItem :=
  resources.map normalizeGithubItem

/-- The normalized form of one `ai_use_cases` entry built inside
`_normalize_output`; the rebuilt dictionary carries exactly the keys
`use_case`, `description` and `resources` (so `search_keywords` is
dropped). -/
def normalizeUseCase (uc : RawUseCase) : RawUseCase :=
  { use_case := some (uc.use_case.getD ""),
    description := some (uc.description.getD ""),
    search_keywords := none,
    resources := some
      { arxiv := some (normalize_arxiv ((uc.resources.getD emptyResources).arxiv.getD [])),
        huggingface :=
          some (normalize_huggingface ((uc.resources.getD emptyResources).huggingface.getD [])),
        kaggle := some (normalize_kaggle ((uc.resources.getD emptyResources).kaggle.getD [])),
        github := some (normalize_github ((uc.resources.getD emptyResources).github.getD [])) } }

/-- `VerifierAgent._normalize_output`. -/
def normalize_output (results : RawResult) : RawResult :=
  { company := some (results.company.getD ""),
    company_summary := some (results.company_summary.getD ""),
    news_summary := some (results.news_summary.getD ""),
    ai_use_cases := some ((results.ai_use_cases.getD []).map normalizeUseCase) }

/-- `VerifierAgent.verify_and_finalize`. -/
def verify_and_finalize (results : RawResult) : RawResult :=
  let issues := check_completeness results
  let repaired := if issues.isEmpty then results else fix_issues results
  normalize_output repaired

end VerifierAgent

/-! ## GitHub tool (`src/tools/github_tool.py`)

`GitHubTool.search` performs the HTTP request; it is modelled as an
oracle `search : String → List Repo` (its own retry loop already
degrades every failure to `[]`, so the oracle is total).  Alongside
the repository list, the model returns the trace of queries issued,
in order. -/

/-- A repository record as built by `GitHubTool.search`. -/
structure Repo where
  name : String
  url : String
  stars : Int
  descr : String
  deriving DecidableEq, Repr

namespace GitHubTool

/-- Try 3 of `GitHubTool.search_use_case` (first-2-words query),
entered with the trace accumulated so far. -/
def try3 (search : String → List Repo) (ws : List String) (trace : List String) :
    List Repo × List String :=
  if ws.length > 2 then
    let super_broad_query := joinWords (ws.take 2)
    (search super_broad_query, trace ++ [super_broad_query])
  else ([], trace)

/-- `GitHubTool.search_use_case`, instrumented with the list of
queries issued. -/
def search_use_case (search : String → List Repo) (use_case : String) :
    List Repo × List String :=
  let results := search use_case
  if results.isEmpty then
    let ws := queryWords use_case
    if ws.length > 3 then
      let shortened_query := joinWords (ws.take 3)
      let results2 := search shortened_query
      if results2.isEmpty then try3 search ws [use_case, shortened_query]
      else (results2, [use_case, shortened_query])
    else try3 search ws [use_case]
  else (results, [use_case])

end GitHubTool

/-! ## Kaggle tool (`src/tools/kaggle_tool.py`)

`KaggleTool.search` (the scraper) is modelled as two oracles, one per
`search_type` (`"datasets"`, `"notebooks"`); its failure path already
returns the placeholder list, so any oracle value is possible. -/

/-- A Kaggle item (title and URL). -/
structure KItem where
  title : String
  url : String
  deriving DecidableEq, Repr

namespace KaggleTool

/-- Python `'search?q=' in url`. -/
def urlIsSearchPage (url : String) : Bool :=
  strContains url "search?q="

/-- `KaggleTool._get_placeholder_results`. -/
def get_placeholder_results (query : String) (search_type : String) : List KItem :=
  [⟨"Search Kaggle " ++ search_type ++ " for: " ++ query,
    "https://www.kaggle.com" ++ "/search?q=" ++ plusEncode query⟩]

/-- The `is_valid_result` helper inside `search_use_case`. -/
def is_valid_result (res_list : List KItem) : Bool :=
  match res_list with
  | [] => false
  | [r] => !(urlIsSearchPage r.url)
  | _ => true

/-- One broadening level of `search_use_case`: issue both sub-type
searches for `q`; return the merged non-placeholder hits (capped to
`max_results`) when they exist, `none` to fall through to the next
level. -/
def level (searchD searchN : String → List KItem) (max_results : Nat) (q : String) :
    Option (List KItem) :=
  let datasets := searchD q
  let notebooks := searchN q
  if is_valid_result datasets || is_valid_result notebooks then
    let valid_datasets := datasets.filter (fun d => !(urlIsSearchPage d.url))
    let valid_notebooks := notebooks.filter (fun n => !(urlIsSearchPage n.url))
    if valid_datasets.isEmpty && valid_notebooks.isEmpty then none
    else some ((valid_datasets ++ valid_notebooks).take max_results)
  else none

/-- Try 3 of `KaggleTool.search_use_case` (first-2-words query). -/
def try3 (searchD searchN : String → List KItem) (max_results : Nat)
    (use_case : String) (ws : List String) (trace : List String) :
    List KItem × List String :=
  if ws.length > 2 then
    let super_broad_query := joinWords (ws.take 2)
    match level searchD searchN max_results super_broad_query with
    | some r => (r, trace ++ [super_broad_query])
    | none =>
        (get_placeholder_results use_case "datasets + notebooks", trace ++ [super_broad_query])
  else (get_placeholder_results use_case "datasets + notebooks", trace)

/-- `KaggleTool.search_use_case`, instrumented with the trace of
per-level queries (each level issues its query once per sub-type). -/
def search_use_case (searchD searchN : String → List KItem) (max_results : Nat)
    (use_case : String) : List KItem × List String :=
  match level searchD searchN max_results use_case with
  | some r => (r, [use_case])
  | none =>
    let ws := queryWords use_case
    if ws.length > 3 then
      let shortened_query := joinWords (ws.take 3)
      match level searchD searchN max_results shortened_query with
      | some r => (r, [use_case, shortened_query])
      | none => try3 searchD searchN max_results use_case ws [use_case, shortened_query]
    else try3 searchD searchN max_results use_case ws [use_case]

/-- The queries attempted by `search_use_case` when every level falls
through (level 1 always, then the broadening levels gated on the word
count). -/
def levelQueries (use_case : String) : List String :=
  let ws := queryWords use_case
  [use_case] ++
    (if ws.length > 3 then [joinWords (ws.take 3)] else []) ++
    (if ws.length > 2 then [joinWords (ws.take 2)] else [])

end KaggleTool

/-! ## Executor agent (`src/agents/executor_agent.py`) -/

/-- A use-case record produced by use-case generation. -/
structure GenUseCase where
  use_case : String
  descr : String
  search_keywords : Option String
  deriving DecidableEq, Repr

/-- The outcome of `llm.generate_structured_output` as inspected by
`_generate_use_cases`: a bare JSON array, a JSON object with or
without a `use_cases` key, some other shape, or a raised exception. -/
inductive GenOutcome where
  | arr (l : List GenUseCase)
  | obj (use_cases : Option (List GenUseCase))
  | otherShape
  | raised
  deriving DecidableEq, Repr

namespace ExecutorAgent

/-- `ExecutorAgent._get_default_use_cases`. -/
def get_default_use_cases (company_name : String) : List GenUseCase :=
  [{ use_case := "Customer Service Chatbot",
     descr := "Implement an AI-powered chatbot to handle customer inquiries for " ++
       company_name ++ ", improving response times and customer satisfaction.",
     search_keywords := none },
   { use_case := "Predictive Analytics",
     descr := "Use machine learning to predict trends and patterns in " ++
       company_name ++ "'s business data for better decision-making.",
     search_keywords := none },
   { use_case := "Process Automation",
     descr := "Automate repetitive tasks and workflows at " ++ company_name ++
       " using AI to increase efficiency and reduce costs.",
     search_keywords := none }]

/-- `ExecutorAgent._generate_use_cases`, parameterized by the outcome
of the structured-generation call. -/
def generate_use_cases (company_name : String) (gen : GenOutcome) : List GenUseCase :=
  match gen with
  | .arr l => l.take 10
  | .obj (some l) => l.take 10
  | .obj none => get_default_use_cases company_name
  | .otherShape => get_default_use_cases company_name
  | .raised => get_default_use_cases company_name

/-! ### `_search_resources` (claim about query resolution and fan-out) -/

/-- The argument of `_search_resources`: either a use-case dictionary
or a non-dict value (turned into a string by `str(...)`). -/
inductive UseCaseData where
  | dict (use_case : Option String) (descr : Option String) (search_keywords : Option String)
  | nonDict (s : String)
  deriving DecidableEq, Repr

/-- The resolved search query of `_search_resources`:
`use_case_data.get("search_keywords", use_case_data.get("use_case", ""))`
for a dict, `str(use_case_data)` otherwise. -/
def resolveQuery (d : UseCaseData) : String :=
  match d with
  | .dict use_case _ search_keywords => search_keywords.getD (use_case.getD "")
  | .nonDict s => s

/-- The `resources` dictionary returned by `_search_resources`:
always exactly the four backend keys. -/
structure Resources4 where
  arxiv : List RItem
  huggingface : List RItem
  kaggle : List RItem
  github : List RItem
  deriving DecidableEq, Repr

/-- The per-backend try/except wrapper inside `_search_resources`
(`search_arxiv` etc.): a raising backend degrades to `[]`. -/
def caught (r : Except Unit (List RItem)) : List RItem :=
  match r with
  | .ok l => l
  | .error _ => []

/-- `ExecutorAgent._search_resources`, parameterized by the four
backend `search_use_case` calls as oracles; the second component is
the list of backends actually dispatched.  The thread-pool fan-out
writes each backend's result under its own key, so aggregation is
order-independent and is modelled directly. -/
def search_resources (arxivS hfS kagS ghS : String → Except Unit (List RItem))
    (d : UseCaseData) : Resources4 × List String :=
  let search_query := resolveQuery d
  if search_query = "" then
    ({ arxiv := [], huggingface := [], kaggle := [], github := [] }, [])
  else
    ({ arxiv := caught (arxivS search_query),
       huggingface := caught (hfS search_query),
       kaggle := caught (kagS search_query),
       github := caught (ghS search_query) },
     ["arxiv", "huggingface", "kaggle", "github"])

/-! ### `_fetch_and_summarize_news` -/

/-- A news article as returned by `NewsTool.search_company_news`
(the fields read by the executor). -/
structure Article where
  title : String
  descr : String
  published_at : String
  deriving DecidableEq, Repr

/-- A web-search result as read by the fallback
(`r.get('title', '')`, `r.get('snippet', '')`). -/
structure SearchHit where
  title : String
  snippet : String
  deriving DecidableEq, Repr

/-- The `news_text` built from NewsAPI articles (first 7). -/
def renderArticles (articles : List Article) : String :=
  String.intercalate "\n\n"
    ((articles.take 7).map (fun a =>
      "Title: " ++ a.title ++ "\nDate: " ++ a.published_at ++ "\nContent: " ++ a.descr))

/-- The `news_text` built from the merged web-search fallback hits. -/
def renderHits (rs : List SearchHit) : String :=
  String.intercalate "\n\n"
    (rs.map (fun r => "Title: " ++ r.title ++ "\nSnippet: " ++ r.snippet))

/-- Observable outcome of `_fetch_and_summarize_news`: the returned
string, the web-search queries issued by the fallback (in order), and
the text handed to the summarizer (`none` when the summarizer was
never invoked). -/
structure NewsFetchOut where
  output : String
  ddg_queries : List String
  llm_input : Option String
  deriving DecidableEq, Repr

/-- The tail of `_fetch_and_summarize_news` after `news_text` is
built: the no-data sentinel check, then the summarization call. -/
def finishNews (news_text : String) (qs : List String)
    (llm : String → Except Unit String) : NewsFetchOut :=
  if news_text = "" ∨ news_text = "No recent news found." then
    { output := "No recent news or funding information available.",
      ddg_queries := qs, llm_input := none }
  else
    match llm news_text with
    | .ok summary => { output := summary, ddg_queries := qs, llm_input := some news_text }
    | .error _ =>
        { output := "Error generating news summary.", ddg_queries := qs,
          llm_input := some news_text }

/-- `ExecutorAgent._fetch_and_summarize_news`, parameterized by the
primary news call, the web-search call and the summarizer, each as an
oracle that may raise.  An empty primary result raises `ValueError`
into the same handler as a primary failure, entering the dual-query
fallback; the guards `if results_funding:` / `if results_news:`
before `extend(...[:3])` are no-ops on empty lists and are modelled
by `take 3` directly. -/
def fetch_and_summarize_news (company_name : String)
    (news : Except Unit (List Article))
    (ddg : String → Except Unit (List SearchHit))
    (llm : String → Except Unit String) : NewsFetchOut :=
  match news with
  | .ok (a :: rest) => finishNews (renderArticles (a :: rest)) [] llm
  | _ =>
    let query_funding := company_name ++ " funding rounds investors crunchbase"
    let query_news := company_name ++ " latest business news"
    match ddg query_funding with
    | .error _ =>
        { output := "Could not retrieve news or funding information.",
          ddg_queries := [query_funding], llm_input := none }
    | .ok results_funding =>
      match ddg query_news with
      | .error _ =>
          { output := "Could not retrieve news or funding information.",
            ddg_queries := [query_funding, query_news], llm_input := none }
      | .ok results_news =>
        let search_results := results_funding.take 3 ++ results_news.take 3
        let news_text :=
          if search_results.isEmpty then "No recent news found."
          else renderHits search_results
        finishNews news_text [query_funding, query_news] llm

end ExecutorAgent

/-! ## Planner agent (`src/agents/planner_agent.py`) -/

/-- The `tool` field of a plan step: a single tool name or a list. -/
inductive ToolSpec where
  | one (t : String)
  | many (ts : List String)
  deriving DecidableEq, Repr

/-- A step of an execution plan. -/
structure PlanStep where
  id : Nat
  action : String
  tool : ToolSpec
  deriving DecidableEq, Repr

/-- An execution plan (the generated `company` field may be absent). -/
structure Plan where
  company : Option String
  steps : List PlanStep
  deriving DecidableEq, Repr

/-- The outcome of the structured-generation call in `create_plan`: a
dict (assignable mapping), a non-dict value (on which the subsequent
`plan["company"] = ...` assignment raises, landing in the same
handler), or a raised exception. -/
inductive PlanGenOutcome where
  | dict (p : Plan)
  | nonDict
  | raised
  deriving DecidableEq, Repr

namespace PlannerAgent

/-- `PlannerAgent._get_default_plan`. -/
def get_default_plan (company_name : String) : Plan :=
  { company := some company_name,
    steps :=
      [{ id := 1, action := "search_company_info", tool := .one "DuckDuckGoTool" },
       { id := 2, action := "summarize_company", tool := .one "LLM" },
       { id := 3, action := "generate_ai_use_cases", tool := .one "LLM" },
       { id := 4, action := "search_resources",
         tool := .many ["ArxivTool", "HuggingFaceTool", "KaggleTool", "GitHubTool"] },
       { id := 5, action := "verify_and_finalize", tool := .one "VerifierAgent" }] }

/-- `PlannerAgent.create_plan`, parameterized by the generation
outcome: on success the generated plan's `company` field is
overwritten with the input; on any failure the default plan (which
also carries the input company) is returned. -/
def create_plan (company_name : String) (gen : PlanGenOutcome) : Plan :=
  match gen with
  | .dict p => { p with company := some company_name }
  | .nonDict => get_default_plan company_name
  | .raised => get_default_plan company_name

end PlannerAgent

end ResourceAssistant



namespace ResourceAssistant

/-! ## Schema predicates (written from the spec's canonical schema) -/

/-- Spec-side predicate: a `resources` map with exactly the four
backend keys, each item projected to its canonical fields. -/
def canonicalResources (res : RawResources) : Bool :=
  match res.arxiv, res.huggingface, res.kaggle, res.github with
  | some a, some h, some k, some g =>
    a.all (fun r => rkeys r == ["title", "url"]) &&
    h.all (fun r => rkeys r == ["name", "url"]) &&
    k.all (fun r => rkeys r == ["title", "url"]) &&
    g.all (fun r => rkeys r == ["name", "url", "stars"])
  | _, _, _, _ => false

/-- Spec-side predicate: a use case carrying `use_case`, `description`
and a canonical `resources` map (and no transient `search_keywords`). -/
def canonicalUseCase (uc : RawUseCase) : Bool :=
  uc.use_case.isSome && uc.description.isSome && uc.search_keywords.isNone &&
  (match uc.resources with
   | some res => canonicalResources res
   | none => false)

/-- Spec-side predicate: the canonical `AnalysisResult` schema. -/
def canonicalResult (x : RawResult) : Bool :=
  x.company.isSome && x.company_summary.isSome && x.news_summary.isSome &&
  (match x.ai_use_cases with
   | some l => l.all canonicalUseCase
   | none => false)

namespace VerifierAgent

/-! ## Verifier lemmas -/

theorem normalizeArxivItem_idem (r : RItem) :
    normalizeArxivItem (normalizeArxivItem r) = normalizeArxivItem r := rfl

theorem normalizeHuggingfaceItem_idem (r : RItem) :
    normalizeHuggingfaceItem (normalizeHuggingfaceItem r) = normalizeHuggingfaceItem r := rfl

theorem normalizeKaggleItem_idem (r : RItem) :
    normalizeKaggleItem (normalizeKaggleItem r) = normalizeKaggleItem r := rfl

theorem normalizeGithubItem_idem (r : RItem) :
    normalizeGithubItem (normalizeGithubItem r) = normalizeGithubItem r := rfl

theorem normalize_arxiv_idem (l : List RItem) :
    normalize_arxiv (normalize_arxiv l) = normalize_arxiv l := by
  unfold normalize_arxiv
  rw [List.map_map]
  exact List.map_congr_left (fun a _ => normalizeArxivItem_idem a)

theorem normalize_huggingface_idem (l : List RItem) :
    normalize_huggingface (normalize_huggingface l) = normalize_huggingface l := by
  unfold normalize_huggingface
  rw [List.map_map]
  exact List.map_congr_left (fun a _ => normalizeHuggingfaceItem_idem a)

theorem normalize_kaggle_idem (l : List RItem) :
    normalize_kaggle (normalize_kaggle l) = normalize_kaggle l := by
  unfold normalize_kaggle
  rw [List.map_map]
  exact List.map_congr_left (fun a _ => normalizeKaggleItem_idem a)

theorem normalize_github_idem (l : List RItem) :
    normalize_github (normalize_github l) = normalize_github l := by
  unfold normalize_github
  rw [List.map_map]
  exact List.map_congr_left (fun a _ => normalizeGithubItem_idem a)

theorem normalizeUseCase_idem (uc : RawUseCase) :
    normalizeUseCase (normalizeUseCase uc) = normalizeUseCase uc := by
  simp [normalizeUseCase, normalize_arxiv_idem, normalize_huggingface_idem,
    normalize_kaggle_idem, normalize_github_idem]

/-- Claim C3: normalization is idempotent — for every input `x`,
`_normalize_output(_normalize_output(x)) == _normalize_output(x)`. -/
theorem normalize_output_idem (x : RawResult) :
    normalize_output (normalize_output x) = normalize_output x := by
  simp only [normalize_output, Option.getD_some, RawResult.mk.injEq, true_and]
  rw [List.map_map]
  exact congrArg some (List.map_congr_left (fun a _ => normalizeUseCase_idem a))

theorem canonicalUseCase_normalize (uc : RawUseCase) :
    canonicalUseCase (normalizeUseCase uc) = true := by
  simp only [canonicalUseCase, normalizeUseCase, canonicalResources,
    normalize_arxiv, normalize_huggingface, normalize_kaggle, normalize_github,
    Option.isSome_some, Option.isNone_none, Bool.and_self, Bool.true_and,
    List.all_map]
  simp only [Bool.and_eq_true, List.all_eq_true]
  refine ⟨⟨⟨?_, ?_⟩, ?_⟩, ?_⟩ <;> intro r _ <;> rfl

/-- Claim C2: for every input, `verify_and_finalize` returns a result
conforming to the canonical schema — top-level keys `company`,
`company_summary`, `news_summary`, `ai_use_cases`; each use case
carries `use_case`, `description` and a `resources` map with exactly
the four backend keys; every item is projected to exactly its
canonical fields (arxiv/kaggle `{title,url}`, huggingface
`{name,url}`, github `{name,url,stars}`), transient fields discarded.
(The embedding is a total function, so the "never raises" part is
reflected by the theorem holding for every input of the data model.) -/
theorem verify_and_finalize_canonical (x : RawResult) :
    canonicalResult (verify_and_finalize x) = true := by
  unfold verify_and_finalize
  simp only [canonicalResult, normalize_output, Option.isSome_some, Bool.true_and,
    Bool.and_self, List.all_eq_true]
  intro uc huc
  rcases List.mem_map.mp huc with ⟨uc₀, _, rfl⟩
  exact canonicalUseCase_normalize uc₀

/-! ## Claim C1: the completeness/repair invariant, and the input on
which the repair is lost -/

/-- An analysis result whose single use case has no `resources` key at
all (`{"use_case": ..., "description": ...}` only). -/
def missingResourcesInput : RawResult :=
  { company := some "Acme",
    company_summary := some "A sufficiently long summary.",
    news_summary := some "news",
    ai_use_cases := some
      [{ use_case := some "Demand Forecasting", description := some "d",
         search_keywords := none, resources := none }] }

/-- Claim C1 (violated by the code): on an input whose use case lacks
the `resources` key, `_check_completeness` flags all four backends as
missing, yet `verify_and_finalize` returns that use case with all four
backend lists empty — `_fix_issues` wrote the placeholders into the
fresh dictionary produced by `use_case.get("resources", {})`, which is
then discarded, so the flagged pairs are never repaired. -/
theorem verify_and_finalize_unrepaired_when_resources_key_missing :
    ("Use-case 1: Missing arXiv resources" ∈ check_completeness missingResourcesInput) ∧
    ("Use-case 1: Missing GitHub resources" ∈ check_completeness missingResourcesInput) ∧
    (verify_and_finalize missingResourcesInput).ai_use_cases =
      some [{ use_case := some "Demand Forecasting", description := some "d",
              search_keywords := none,
              resources := some { arxiv := some [], huggingface := some [],
                                  kaggle := some [], github := some [] } }] :=
  ⟨by decide, by decide, by decide⟩

/-! ## Claim C9: frame property of `verify_and_finalize` -/

theorem fix_issues_company (x : RawResult) : (fix_issues x).company = x.company := rfl

theorem fix_issues_company_summary (x : RawResult) :
    (fix_issues x).company_summary = x.company_summary := rfl

theorem fix_issues_news_summary (x : RawResult) :
    (fix_issues x).news_summary = x.news_summary := rfl

/-- Claim C9: `verify_and_finalize` leaves the `company`,
`company_summary` and `news_summary` values unchanged whenever they
are present; a `company_summary` shorter than 10 characters is flagged
by the completeness check but returned unmodified, since the repair
step only touches per-use-case resources. -/
theorem verify_and_finalize_frame (x : RawResult) (c cs ns : String)
    (hc : x.company = some c) (hcs : x.company_summary = some cs)
    (hns : x.news_summary = some ns) :
    (verify_and_finalize x).company = some c ∧
    (verify_and_finalize x).company_summary = some cs ∧
    (verify_and_finalize x).news_summary = some ns ∧
    (cs.length < 10 → "Missing or incomplete company summary" ∈ check_completeness x) := by
  refine ⟨?_, ?_, ?_, ?_⟩
  · unfold verify_and_finalize
    by_cases h : (check_completeness x).isEmpty <;>
      simp [h, normalize_output, fix_issues_company, hc]
  · unfold verify_and_finalize
    by_cases h : (check_completeness x).isEmpty <;>
      simp [h, normalize_output, fix_issues_company_summary, hcs]
  · unfold verify_and_finalize
    by_cases h : (check_completeness x).isEmpty <;>
      simp [h, normalize_output, fix_issues_news_summary, hns]
  · intro hlen
    have hinc : summaryIncomplete x.company_summary = true := by
      rw [hcs]
      simp [summaryIncomplete, hlen]
    unfold check_completeness
    rw [if_pos hinc]
    simp

/-- Witness for `verify_and_finalize_frame` at a concrete input whose
company summary is shorter than 10 characters. -/
theorem verify_and_finalize_frame_witness :
    (verify_and_finalize
        { company := some "Globex", company_summary := some "tiny",
          news_summary := some "n", ai_use_cases := some [] }).company = some "Globex" ∧
    (verify_and_finalize
        { company := some "Globex", company_summary := some "tiny",
          news_summary := some "n", ai_use_cases := some [] }).company_summary = some "tiny" ∧
    (verify_and_finalize
        { company := some "Globex", company_summary := some "tiny",
          news_summary := some "n", ai_use_cases := some [] }).news_summary = some "n" ∧
    ("tiny".length < 10 → "Missing or incomplete company summary" ∈ check_completeness
        { company := some "Globex", company_summary := some "tiny",
          news_summary := some "n", ai_use_cases := some [] }) :=
  verify_and_finalize_frame
    { company := some "Globex", company_summary := some "tiny",
      news_summary := some "n", ai_use_cases := some [] }
    "Globex" "tiny" "n" rfl rfl rfl

end VerifierAgent

/-! ## Claim C8: `create_plan` always carries the input company name -/

/-- Claim C8: for every company name, the plan returned by
`create_plan` has its `company` field equal to the input — the
generated value is overwritten on success, and every failure path
substitutes the default plan, which also carries the input. -/
theorem create_plan_company_eq_input (company_name : String) (gen : PlanGenOutcome) :
    (PlannerAgent.create_plan company_name gen).company = some company_name := by
  cases gen <;> rfl

/-! ## Claim C5: use-case generation fallback and cap -/

/-- Claim C5: if the structured-generation call raises, or returns a
value that is neither a list nor a dict containing a `use_cases` key,
`_generate_use_cases` returns exactly the 3 fixed default use cases
("Customer Service Chatbot", "Predictive Analytics",
"Process Automation", in that order); and for every outcome the
returned list has at most 10 entries. -/
theorem generate_use_cases_fallback_and_cap (company_name : String) (gen : GenOutcome) :
    ((gen = .raised ∨ gen = .otherShape ∨ gen = .obj none) →
      ExecutorAgent.generate_use_cases company_name gen =
        ExecutorAgent.get_default_use_cases company_name ∧
      (ExecutorAgent.generate_use_cases company_name gen).map GenUseCase.use_case =
        ["Customer Service Chatbot", "Predictive Analytics", "Process Automation"]) ∧
    (ExecutorAgent.generate_use_cases company_name gen).length ≤ 10 := by
  constructor
  · rintro (rfl | rfl | rfl) <;> exact ⟨rfl, rfl⟩
  · cases gen with
    | arr l => simp [ExecutorAgent.generate_use_cases]
    | obj o =>
      cases o with
      | none => simp [ExecutorAgent.generate_use_cases, ExecutorAgent.get_default_use_cases]
      | some l => simp [ExecutorAgent.generate_use_cases]
    | otherShape => simp [ExecutorAgent.generate_use_cases, ExecutorAgent.get_default_use_cases]
    | raised => simp [ExecutorAgent.generate_use_cases, ExecutorAgent.get_default_use_cases]

/-- Witness for `generate_use_cases_fallback_and_cap`: a raised
generation call yields the three fixed defaults. -/
theorem generate_use_cases_fallback_witness :
    ExecutorAgent.generate_use_cases "Initech" .raised =
      ExecutorAgent.get_default_use_cases "Initech" ∧
    (ExecutorAgent.generate_use_cases "Initech" .raised).map GenUseCase.use_case =
      ["Customer Service Chatbot", "Predictive Analytics", "Process Automation"] :=
  (generate_use_cases_fallback_and_cap "Initech" .raised).1 (Or.inl rfl)

/-! ## Claim C10: query resolution in `_search_resources` -/

/-- Claim C10: when the resolved search query is the empty string,
`_search_resources` returns the map with all four backend keys bound
to empty lists and dispatches no backend search; otherwise it
dispatches all four backends and returns a map with exactly the four
keys, each bound to its backend's (exception-caught) result. -/
theorem search_resources_empty_query (arxivS hfS kagS ghS : String → Except Unit (List RItem))
    (d : ExecutorAgent.UseCaseData) :
    (ExecutorAgent.resolveQuery d = "" →
      ExecutorAgent.search_resources arxivS hfS kagS ghS d =
        ({ arxiv := [], huggingface := [], kaggle := [], github := [] }, [])) ∧
    (ExecutorAgent.resolveQuery d ≠ "" →
      ExecutorAgent.search_resources arxivS hfS kagS ghS d =
        ({ arxiv := ExecutorAgent.caught (arxivS (ExecutorAgent.resolveQuery d)),
           huggingface := ExecutorAgent.caught (hfS (ExecutorAgent.resolveQuery d)),
           kaggle := ExecutorAgent.caught (kagS (ExecutorAgent.resolveQuery d)),
           github := ExecutorAgent.caught (ghS (ExecutorAgent.resolveQuery d)) },
         ["arxiv", "huggingface", "kaggle", "github"])) := by
  constructor <;> intro h <;> simp [ExecutorAgent.search_resources, h]

/-- Witness for `search_resources_empty_query`: a use case carrying an
empty `search_keywords` string resolves to the empty query (no
dispatch), and a plain string resolves to itself (full fan-out). -/
theorem search_resources_empty_query_witness :
    ExecutorAgent.search_resources (fun _ => .error ()) (fun _ => .error ())
        (fun _ => .error ()) (fun _ => .error ())
        (ExecutorAgent.UseCaseData.dict (some "Demand Forecasting") none (some "")) =
      ({ arxiv := [], huggingface := [], kaggle := [], github := [] }, []) ∧
    ExecutorAgent.search_resources (fun _ => .ok []) (fun _ => .ok [])
        (fun _ => .ok []) (fun _ => .ok []) (ExecutorAgent.UseCaseData.nonDict "churn prediction") =
      ({ arxiv := [], huggingface := [], kaggle := [], github := [] },
       ["arxiv", "huggingface", "kaggle", "github"]) :=
  ⟨(search_resources_empty_query (fun _ => .error ()) (fun _ => .error ())
      (fun _ => .error ()) (fun _ => .error ())
      (ExecutorAgent.UseCaseData.dict (some "Demand Forecasting") none (some ""))).1 rfl,
   (search_resources_empty_query (fun _ => .ok []) (fun _ => .ok [])
      (fun _ => .ok []) (fun _ => .ok []) (ExecutorAgent.UseCaseData.nonDict "churn prediction")).2 (by decide)⟩

/-! ## Claim C4: broadening queries are word-prefix joins -/

theorem github_trace_tail (search : String → List Repo) (q : String) :
    ∀ fq ∈ ((GitHubTool.search_use_case search q).2).tail,
      fq = joinWords ((queryWords q).take 3) ∨ fq = joinWords ((queryWords q).take 2) := by
  unfold GitHubTool.search_use_case GitHubTool.try3
  by_cases h1 : (search q).isEmpty
  · by_cases h3 : (queryWords q).length > 3
    · by_cases h2 : (search (joinWords ((queryWords q).take 3))).isEmpty
      · by_cases hl2 : (queryWords q).length > 2 <;> simp [h1, h3, h2, hl2]
      · simp [h1, h3, h2]
    · by_cases hl2 : (queryWords q).length > 2 <;> simp [h1, h3, hl2]
  · simp [h1]

theorem github_trace_head (search : String → List Repo) (q : String) :
    ((GitHubTool.search_use_case search q).2).head? = some q := by
  unfold GitHubTool.search_use_case GitHubTool.try3
  by_cases h1 : (search q).isEmpty
  · by_cases h3 : (queryWords q).length > 3
    · by_cases h2 : (search (joinWords ((queryWords q).take 3))).isEmpty
      · by_cases hl2 : (queryWords q).length > 2 <;> simp [h1, h3, h2, hl2]
      · simp [h1, h3, h2]
    · by_cases hl2 : (queryWords q).length > 2 <;> simp [h1, h3, hl2]
  · simp [h1]

theorem kaggle_trace_tail (sD sN : String → List KItem) (m : Nat) (q : String) :
    ∀ fq ∈ ((KaggleTool.search_use_case sD sN m q).2).tail,
      fq = joinWords ((queryWords q).take 3) ∨ fq = joinWords ((queryWords q).take 2) := by
  unfold KaggleTool.search_use_case KaggleTool.try3
  cases h1 : KaggleTool.level sD sN m q with
  | some r => simp [h1]
  | none =>
    by_cases h3 : (queryWords q).length > 3
    · cases h2 : KaggleTool.level sD sN m (joinWords ((queryWords q).take 3)) with
      | some r => simp [h1, h2, h3]
      | none =>
        by_cases hl2 : (queryWords q).length > 2
        · cases hl : KaggleTool.level sD sN m (joinWords ((queryWords q).take 2)) with
          | some r => simp [h1, h2, h3, hl2, hl]
          | none => simp [h1, h2, h3, hl2, hl]
        · simp [h1, h2, h3, hl2]
    · by_cases hl2 : (queryWords q).length > 2
      · cases hl : KaggleTool.level sD sN m (joinWords ((queryWords q).take 2)) with
        | some r => simp [h1, h3, hl2, hl]
        | none => simp [h1, h3, hl2, hl]
      · simp [h1, h3, hl2]

theorem kaggle_trace_head (sD sN : String → List KItem) (m : Nat) (q : String) :
    ((KaggleTool.search_use_case sD sN m q).2).head? = some q := by
  unfold KaggleTool.search_use_case KaggleTool.try3
  cases h1 : KaggleTool.level sD sN m q with
  | some r => simp [h1]
  | none =>
    by_cases h3 : (queryWords q).length > 3
    · cases h2 : KaggleTool.level sD sN m (joinWords ((queryWords q).take 3)) with
      | some r => simp [h1, h2, h3]
      | none =>
        by_cases hl2 : (queryWords q).length > 2
        · cases hl : KaggleTool.level sD sN m (joinWords ((queryWords q).take 2)) with
          | some r => simp [h1, h2, h3, hl2, hl]
          | none => simp [h1, h2, h3, hl2, hl]
        · simp [h1, h2, h3, hl2]
    · by_cases hl2 : (queryWords q).length > 2
      · cases hl : KaggleTool.level sD sN m (joinWords ((queryWords q).take 2)) with
        | some r => simp [h1, h3, hl2, hl]
        | none => simp [h1, h3, hl2, hl]
      · simp [h1, h3, hl2]

/-- Claim C4: every fallback query issued during broadening by the
repository-search and dataset/notebook-search adapters is the
space-join of a word-prefix of the original query (its first 3 words
or its first 2 words, the original query itself always coming first);
and on the 4-word query "demand forecasting xgboost retail" with every
level yielding 0 repository hits, the queries issued are exactly the
original, then "demand forecasting xgboost", then "demand
forecasting". -/
theorem broadening_queries_word_take :
    (∀ (search : String → List Repo) (q : String),
      ∀ fq ∈ ((GitHubTool.search_use_case search q).2).tail,
        fq = joinWords ((queryWords q).take 3) ∨ fq = joinWords ((queryWords q).take 2)) ∧
    (∀ (search : String → List Repo) (q : String),
      ((GitHubTool.search_use_case search q).2).head? = some q) ∧
    (∀ (sD sN : String → List KItem) (m : Nat) (q : String),
      ∀ fq ∈ ((KaggleTool.search_use_case sD sN m q).2).tail,
        fq = joinWords ((queryWords q).take 3) ∨ fq = joinWords ((queryWords q).take 2)) ∧
    (∀ (sD sN : String → List KItem) (m : Nat) (q : String),
      ((KaggleTool.search_use_case sD sN m q).2).head? = some q) ∧
    GitHubTool.search_use_case (fun _ => ([] : List Repo)) "demand forecasting xgboost retail" =
      ([], ["demand forecasting xgboost retail", "demand forecasting xgboost",
            "demand forecasting"]) :=
  ⟨github_trace_tail, github_trace_head, kaggle_trace_tail, kaggle_trace_head, by decide⟩

/-- Witness for `broadening_queries_word_take`: the first fallback
query of the scenario is the join of the first 3 words of the original
query. -/
theorem broadening_queries_word_take_witness :
    "demand forecasting xgboost" =
        joinWords ((queryWords "demand forecasting xgboost retail").take 3) ∨
      "demand forecasting xgboost" =
        joinWords ((queryWords "demand forecasting xgboost retail").take 2) :=
  broadening_queries_word_take.1 (fun _ => []) "demand forecasting xgboost retail"
    "demand forecasting xgboost" (by decide)

/-! ## Claim C7: placeholder exclusion in the Kaggle broadening chain -/

theorem startsWithChars_append (n l lx : List Char) (h : startsWithChars n l = true) :
    startsWithChars n (l ++ lx) = true := by
  induction n generalizing l with
  | nil => simp [startsWithChars]
  | cons a as ih =>
    cases l with
    | nil => simp [startsWithChars] at h
    | cons b bs =>
      simp only [startsWithChars, Bool.and_eq_true] at h ⊢
      exact ⟨h.1, ih bs h.2⟩

theorem containsSubChars_append_left (n l lx : List Char) (h : containsSubChars n l = true) :
    containsSubChars n (l ++ lx) = true := by
  induction l with
  | nil =>
    simp only [containsSubChars] at h
    cases lx with
    | nil => simpa [containsSubChars] using h
    | cons c cs =>
      simp only [List.nil_append, containsSubChars, Bool.or_eq_true]
      left
      cases n with
      | nil => rfl
      | cons a as => simp [List.isEmpty] at h
  | cons c cs ih =>
    simp only [containsSubChars, Bool.or_eq_true] at h
    simp only [List.cons_append, containsSubChars, Bool.or_eq_true]
    rcases h with h | h
    · left; exact startsWithChars_append _ _ _ h
    · right; exact ih h

theorem strToList_append (a b : String) : (a ++ b).toList = a.toList ++ b.toList := rfl

theorem kaggle_placeholder_url (q : String) :
    ∀ i ∈ KaggleTool.get_placeholder_results q "datasets + notebooks",
      KaggleTool.urlIsSearchPage i.url = true := by
  intro i hi
  simp only [KaggleTool.get_placeholder_results, List.mem_singleton] at hi
  subst hi
  show KaggleTool.urlIsSearchPage ("https://www.kaggle.com" ++ "/search?q=" ++ plusEncode q) = true
  unfold KaggleTool.urlIsSearchPage strContains
  rw [strToList_append]
  exact containsSubChars_append_left _ _ _ (by decide)

theorem level_some_no_search_page (sD sN : String → List KItem) (m : Nat) (lq : String)
    (r : List KItem) (h : KaggleTool.level sD sN m lq = some r) :
    ∀ i ∈ r, KaggleTool.urlIsSearchPage i.url = false := by
  simp only [KaggleTool.level] at h
  split at h
  · split at h
    · exact absurd h (by simp)
    · injection h with h
      subst h
      intro i hi
      have hi' := List.take_subset _ _ hi
      rcases List.mem_append.mp hi' with hm | hm
      · have := List.of_mem_filter hm
        simpa using this
      · have := List.of_mem_filter hm
        simpa using this
  · exact absurd h (by simp)

theorem kaggle_cascade (sD sN : String → List KItem) (m : Nat) (q : String) :
    (∃ lq ∈ KaggleTool.levelQueries q,
      KaggleTool.level sD sN m lq = some (KaggleTool.search_use_case sD sN m q).1) ∨
    ((KaggleTool.search_use_case sD sN m q).1 =
        KaggleTool.get_placeholder_results q "datasets + notebooks" ∧
      ∀ lq ∈ KaggleTool.levelQueries q, KaggleTool.level sD sN m lq = none) := by
  cases h1 : KaggleTool.level sD sN m q with
  | some r =>
    left
    refine ⟨q, by simp [KaggleTool.levelQueries], ?_⟩
    simp [KaggleTool.search_use_case, h1]
  | none =>
    by_cases h3 : (queryWords q).length > 3
    · cases h2 : KaggleTool.level sD sN m (joinWords ((queryWords q).take 3)) with
      | some r =>
        left
        refine ⟨joinWords ((queryWords q).take 3), by simp [KaggleTool.levelQueries, h3], ?_⟩
        simp [KaggleTool.search_use_case, h1, h2, h3]
      | none =>
        have hl2 : (queryWords q).length > 2 := by omega
        cases hl : KaggleTool.level sD sN m (joinWords ((queryWords q).take 2)) with
        | some r =>
          left
          refine ⟨joinWords ((queryWords q).take 2), by simp [KaggleTool.levelQueries, h3, hl2], ?_⟩
          simp [KaggleTool.search_use_case, KaggleTool.try3, h1, h2, h3, hl2, hl]
        | none =>
          right
          constructor
          · simp [KaggleTool.search_use_case, KaggleTool.try3, h1, h2, h3, hl2, hl]
          · intro lq hlq
            simp [KaggleTool.levelQueries, h3, hl2] at hlq
            rcases hlq with rfl | rfl | rfl
            exacts [h1, h2, hl]
    · by_cases hl2 : (queryWords q).length > 2
      · cases hl : KaggleTool.level sD sN m (joinWords ((queryWords q).take 2)) with
        | some r =>
          left
          refine ⟨joinWords ((queryWords q).take 2), by simp [KaggleTool.levelQueries, h3, hl2], ?_⟩
          simp [KaggleTool.search_use_case, KaggleTool.try3, h1, h3, hl2, hl]
        | none =>
          right
          constructor
          · simp [KaggleTool.search_use_case, KaggleTool.try3, h1, h3, hl2, hl]
          · intro lq hlq
            simp [KaggleTool.levelQueries, h3, hl2] at hlq
            rcases hlq with rfl | rfl
            exacts [h1, hl]
      · right
        constructor
        · simp [KaggleTool.search_use_case, KaggleTool.try3, h1, h3, hl2]
        · intro lq hlq
          simp [KaggleTool.levelQueries, h3, hl2] at hlq
          subst hlq
          exact h1

/-- Claim C7: at every broadening level of the dataset/notebook search,
an item whose URL contains the generic search-page pattern
`search?q=` is never part of the merged results returned to the
caller; the single synthetic placeholder is returned exactly when
every attempted broadening level is exhausted without a real hit. -/
theorem kaggle_placeholder_only_when_exhausted (sD sN : String → List KItem) (m : Nat)
    (q : String) :
    ((KaggleTool.search_use_case sD sN m q).1 =
        KaggleTool.get_placeholder_results q "datasets + notebooks" ∨
      ∀ i ∈ (KaggleTool.search_use_case sD sN m q).1, KaggleTool.urlIsSearchPage i.url = false) ∧
    ((KaggleTool.search_use_case sD sN m q).1 =
        KaggleTool.get_placeholder_results q "datasets + notebooks" ↔
      ∀ lq ∈ KaggleTool.levelQueries q, KaggleTool.level sD sN m lq = none) := by
  rcases kaggle_cascade sD sN m q with ⟨lq, hlq, hsome⟩ | ⟨hph, hall⟩
  · have hno := level_some_no_search_page sD sN m lq _ hsome
    refine ⟨Or.inr hno, ?_, ?_⟩
    · intro heq
      exfalso
      have hp : ∀ i ∈ (KaggleTool.search_use_case sD sN m q).1, KaggleTool.urlIsSearchPage i.url = true := by
        rw [heq]; exact kaggle_placeholder_url q
      have hne : (KaggleTool.search_use_case sD sN m q).1 ≠ [] := by
        rw [heq]; simp [KaggleTool.get_placeholder_results]
      obtain ⟨i, hi⟩ := List.exists_mem_of_ne_nil _ hne
      have hfalse := hno i hi
      have htrue := hp i hi
      rw [hfalse] at htrue
      exact absurd htrue (by simp)
    · intro hnone
      exfalso
      have := hnone lq hlq
      rw [this] at hsome
      exact Option.noConfusion hsome
  · exact ⟨Or.inl hph, fun _ => hall, fun _ => hph⟩

/-- Witness for `kaggle_placeholder_only_when_exhausted`: with a
scraper that finds no links at any level, the single synthetic
placeholder for the original query is returned. -/
theorem kaggle_placeholder_only_when_exhausted_witness :
    (KaggleTool.search_use_case (fun _ => []) (fun _ => []) 5
        "fraud detection graph networks").1 =
      KaggleTool.get_placeholder_results "fraud detection graph networks"
        "datasets + notebooks" :=
  (kaggle_placeholder_only_when_exhausted (fun _ => []) (fun _ => []) 5
    "fraud detection graph networks").2.mpr (by decide)

/-! ## Claim C6: the news fallback's two queries, caps and sentinel -/

theorem finishNews_queries (nt : String) (qs : List String)
    (llm : String → Except Unit String) :
    (ExecutorAgent.finishNews nt qs llm).ddg_queries = qs := by
  unfold ExecutorAgent.finishNews
  split
  · rfl
  · cases llm nt <;> rfl

/-- Claim C6: when the primary news source returns zero articles or
fails, the fallback issues exactly the two web-search queries
`"<company> funding rounds investors crunchbase"` and
`"<company> latest business news"` (in that order); any text passed to
the summarizer is built from at most the first 3 results of each; and
if both queries also yield nothing, the fixed no-data sentinel is
returned without invoking the summarizer. -/
theorem news_fallback_two_queries (company_name : String)
    (news : Except Unit (List ExecutorAgent.Article))
    (ddg : String → Except Unit (List ExecutorAgent.SearchHit))
    (llm : String → Except Unit String)
    (rf rn : List ExecutorAgent.SearchHit)
    (hnews : news = .ok [] ∨ news = .error ())
    (hf : ddg (company_name ++ " funding rounds investors crunchbase") = .ok rf)
    (hn : ddg (company_name ++ " latest business news") = .ok rn) :
    (ExecutorAgent.fetch_and_summarize_news company_name news ddg llm).ddg_queries =
      [company_name ++ " funding rounds investors crunchbase",
       company_name ++ " latest business news"] ∧
    (∀ t, (ExecutorAgent.fetch_and_summarize_news company_name news ddg llm).llm_input =
        some t → t = ExecutorAgent.renderHits (rf.take 3 ++ rn.take 3)) ∧
    (rf = [] → rn = [] →
      ExecutorAgent.fetch_and_summarize_news company_name news ddg llm =
        { output := "No recent news or funding information available.",
          ddg_queries := [company_name ++ " funding rounds investors crunchbase",
                          company_name ++ " latest business news"],
          llm_input := none }) := by
  have hmain : ExecutorAgent.fetch_and_summarize_news company_name news ddg llm =
      ExecutorAgent.finishNews
        (if (rf.take 3 ++ rn.take 3).isEmpty then "No recent news found."
         else ExecutorAgent.renderHits (rf.take 3 ++ rn.take 3))
        [company_name ++ " funding rounds investors crunchbase",
         company_name ++ " latest business news"] llm := by
    rcases hnews with rfl | rfl <;>
      simp [ExecutorAgent.fetch_and_summarize_news, hf, hn]
  refine ⟨?_, ?_, ?_⟩
  · rw [hmain]
    exact finishNews_queries _ _ _
  · intro t ht
    rw [hmain] at ht
    unfold ExecutorAgent.finishNews at ht
    by_cases he : (rf.take 3 ++ rn.take 3).isEmpty
    · rw [if_pos he] at ht
      rw [if_pos (Or.inr rfl)] at ht
      exact absurd ht (by simp)
    · rw [if_neg he] at ht
      split at ht
      · exact absurd ht (by simp)
      · cases hl : llm (ExecutorAgent.renderHits (rf.take 3 ++ rn.take 3)) <;>
          rw [hl] at ht <;> simpa using ht.symm
  · intro hrf hrn
    subst hrf; subst hrn
    rw [hmain]
    unfold ExecutorAgent.finishNews
    rw [if_pos (by simp)]

/-- Witness for `news_fallback_two_queries`: a primary source with
zero articles and a web search with no hits produce the no-data
sentinel after the two fallback queries. -/
theorem news_fallback_two_queries_witness :
    (ExecutorAgent.fetch_and_summarize_news "Acme" (.ok []) (fun _ => .ok [])
        (fun _ => .ok "summary")).ddg_queries =
      ["Acme funding rounds investors crunchbase", "Acme latest business news"] ∧
    (∀ t, (ExecutorAgent.fetch_and_summarize_news "Acme" (.ok []) (fun _ => .ok [])
        (fun _ => .ok "summary")).llm_input = some t →
      t = ExecutorAgent.renderHits (List.take 3 [] ++ List.take 3 [])) ∧
    (([] : List ExecutorAgent.SearchHit) = [] → ([] : List ExecutorAgent.SearchHit) = [] →
      ExecutorAgent.fetch_and_summarize_news "Acme" (.ok []) (fun _ => .ok [])
          (fun _ => .ok "summary") =
        { output := "No recent news or funding information available.",
          ddg_queries := ["Acme funding rounds investors crunchbase",
                          "Acme latest business news"],
          llm_input := none }) :=
  news_fallback_two_queries "Acme" (.ok []) (fun _ => .ok []) (fun _ => .ok "summary")
    [] [] (Or.inl rfl) rfl rfl

end ResourceAssistant
